import Mathlib

/-!
Shallow embedding of the bootstrap entry point of OmnioSearch (`src/main.tsx`).

The file models, statement by statement, the startup sequence of the frontend:
host-bridge detection (`window.__TAURI__ !== undefined`), the conditional
fire-and-forget `invoke('init_app').catch(...)` call, the React root creation
and render (with the literal toast configuration), the production-only
context-menu suppression, and the two global error/rejection listeners.
The startup is modelled as explicit state passing over a `StartupState`;
the asynchronous settlement of the `init_app` promise and the dispatch of
browser events after startup are modelled as separate functions acting on
the post-startup state.
-/

namespace OmnioSearch

/-- Model of a JavaScript value as it can appear in the global
`window.__TAURI__` binding: `undefined`, `null`, a boolean, a number,
a string, or an (opaque) object reference. -/
inductive JSValue where
  | undefined
  | null
  | bool (b : Bool)
  | num (n : Int)
  | str (s : String)
  | obj
deriving DecidableEq, Repr

/-- Model of `const isTauri = window.__TAURI__ !== undefined;`:
strict inequality against `undefined`, so every value other than
`undefined` (including `null`, `false`, `0`, an empty object) counts
as present. -/
def isTauri (w : JSValue) : Bool :=
  match w with
  | JSValue.undefined => false
  | _ => true

/-- A diagnostic log entry written to the console by this fragment.
`initError e` models `console.error('Failed to initialize Tauri app:', e)`,
`globalError e` models `console.error('Global error:', e)`, and
`unhandledRejection r` models `console.error('Unhandled promise rejection:', r)`. -/
inductive LogEntry where
  | initError (e : JSValue)
  | globalError (e : JSValue)
  | unhandledRejection (r : JSValue)
deriving DecidableEq, Repr

/-- Eventual settlement of the `invoke('init_app')` promise: it either
resolves with a value or rejects with an error value. -/
inductive InvokeResult where
  | resolved (v : JSValue)
  | rejected (e : JSValue)
deriving DecidableEq, Repr

/-- Outcome of the init promise chain once the attached `.catch`
continuation has run: either the chain fulfills, or a rejection escaped
past the handler. -/
inductive SettleOutcome where
  | fulfilled
  | escaped (e : JSValue)
deriving DecidableEq, Repr

/-- Model of `invoke('init_app').catch((error) => console.error(...))`
at settlement time: on resolution the handler is skipped and nothing is
logged; on rejection the handler logs the error once and returns
normally, so the chain fulfills in both cases and no exception escapes. -/
def initCatch (r : InvokeResult) : List LogEntry × SettleOutcome :=
  match r with
  | InvokeResult.resolved _ => ([], SettleOutcome.fulfilled)
  | InvokeResult.rejected e => ([LogEntry.initError e], SettleOutcome.fulfilled)

/-- Icon color pair of a toast severity (`iconTheme` in the source). -/
structure IconTheme where
  primary : String
  secondary : String
deriving DecidableEq, Repr

/-- Default toast style (`style` in the source). -/
structure ToastStyle where
  background : String
  color : String
  border : String
deriving DecidableEq, Repr

/-- Per-severity toast options (`success` / `error` in the source). -/
structure SeverityOptions where
  iconTheme : IconTheme
deriving DecidableEq, Repr

/-- The `toastOptions` record passed to the `Toaster` component. -/
structure ToastOptions where
  duration : Nat
  style : ToastStyle
  success : SeverityOptions
  error : SeverityOptions
deriving DecidableEq, Repr

/-- The literal toast configuration from the source: duration 4000 ms,
slate background and light text, green success accent, red error accent,
both severities sharing the same secondary color. -/
def toastOptions : ToastOptions :=
  { duration := 4000
  , style :=
      { background := "#1e293b"
      , color := "#f1f5f9"
      , border := "1px solid #334155" }
  , success := { iconTheme := { primary := "#10b981", secondary := "#f1f5f9" } }
  , error := { iconTheme := { primary := "#ef4444", secondary := "#f1f5f9" } } }

/-- The document, abstracted to the list of element identifiers it
exposes (the only DOM access in the source is by identifier). -/
structure Document where
  ids : List String
deriving DecidableEq, Repr

/-- Model of `document.getElementById(i)`: the element (represented by
its identifier) when present, `none` (JavaScript `null`) otherwise. -/
def getElementById (d : Document) (i : String) : Option String :=
  if i ∈ d.ids then some i else none

/-- The environment the startup sequence runs in: the value of the
global `window.__TAURI__` binding, the build-mode flag
`import.meta.env.DEV`, the eventual settlement of the `init_app` call,
and the document. -/
structure Env where
  tauriGlobal : JSValue
  dev : Bool
  initResult : InvokeResult
  doc : Document
deriving DecidableEq, Repr

/-- An observable synchronous step of the startup sequence, in the
order it is performed. -/
inductive Event where
  | invokeDispatch (cmd : String)
  | createRootCall
  | renderMount
  | addContextMenuListener
  | addErrorListener
  | addRejectionListener
deriving DecidableEq, Repr

/-- The one fatal failure mode of the startup sequence:
`ReactDOM.createRoot` throws when its argument is not a DOM element,
which happens when `document.getElementById('root')` returned `null`. -/
inductive FatalError where
  | createRootOnNull
deriving DecidableEq, Repr

/-- State threaded through the startup sequence: the trace of completed
steps, how many times the root was rendered, the options the `Toaster`
was given, the number of registered handlers of each kind, and the
pending uncaught exception, if any. -/
structure StartupState where
  trace : List Event
  mountCount : Nat
  toasterOptions : Option ToastOptions
  contextMenuHandlers : Nat
  errorHandlers : Nat
  rejectionHandlers : Nat
  fatal : Option FatalError
deriving DecidableEq, Repr

/-- State before the first statement runs. -/
def initialState : StartupState :=
  { trace := []
  , mountCount := 0
  , toasterOptions := none
  , contextMenuHandlers := 0
  , errorHandlers := 0
  , rejectionHandlers := 0
  , fatal := none }

/-- Statement `if (isTauri) { invoke('init_app').catch(...); }`: when the
bridge is detected, the command is dispatched (the settlement of the
promise is modelled separately by `settleInit`); otherwise nothing
happens. -/
def initStep (env : Env) (s : StartupState) : StartupState :=
  if isTauri env.tauriGlobal then
    { s with trace := s.trace ++ [Event.invokeDispatch "init_app"] }
  else s

/-- Statement
`const root = ReactDOM.createRoot(document.getElementById('root') as HTMLElement);`:
the element is looked up by the fixed identifier `root` with no presence
check; if it is absent, `createRoot` throws and the rest of the script
does not run. -/
def createRootStep (env : Env) (s : StartupState) : StartupState :=
  match getElementById env.doc "root" with
  | some _ => { s with trace := s.trace ++ [Event.createRootCall] }
  | none => { s with fatal := some FatalError.createRootOnNull }

/-- Statement `root.render(<React.StrictMode>...)`: renders the component
tree (including the `Toaster` configured with `toastOptions`) into the
anchor, replacing its subtree. Skipped when a fatal error is pending. -/
def renderStep (s : StartupState) : StartupState :=
  if s.fatal.isSome then s
  else
    { s with trace := s.trace ++ [Event.renderMount],
             mountCount := s.mountCount + 1,
             toasterOptions := some toastOptions }

/-- Statement
`if (!import.meta.env.DEV) { document.addEventListener('contextmenu', (e) => e.preventDefault()); }`. -/
def contextMenuStep (env : Env) (s : StartupState) : StartupState :=
  if s.fatal.isSome then s
  else if !env.dev then
    { s with trace := s.trace ++ [Event.addContextMenuListener],
             contextMenuHandlers := s.contextMenuHandlers + 1 }
  else s

/-- Statement `window.addEventListener('error', ...)`. -/
def errorListenerStep (s : StartupState) : StartupState :=
  if s.fatal.isSome then s
  else
    { s with trace := s.trace ++ [Event.addErrorListener],
             errorHandlers := s.errorHandlers + 1 }

/-- Statement `window.addEventListener('unhandledrejection', ...)`. -/
def rejectionListenerStep (s : StartupState) : StartupState :=
  if s.fatal.isSome then s
  else
    { s with trace := s.trace ++ [Event.addRejectionListener],
             rejectionHandlers := s.rejectionHandlers + 1 }

/-- The whole startup sequence of `main.tsx`, statements in source
order. -/
def startup (env : Env) : StartupState :=
  rejectionListenerStep
    (errorListenerStep
      (contextMenuStep env
        (renderStep
          (createRootStep env
            (initStep env initialState)))))

/-- Settlement of the `init_app` promise after startup: `none` when the
call was never dispatched (no bridge), otherwise the logs and outcome of
the attached `.catch` continuation. -/
def settleInit (env : Env) : Option (List LogEntry × SettleOutcome) :=
  if isTauri env.tauriGlobal then some (initCatch env.initResult) else none

/-- Body of the handler registered for `error` events: it only logs the
error object. -/
def onErrorHandler (e : JSValue) : List LogEntry :=
  [LogEntry.globalError e]

/-- Body of the handler registered for `unhandledrejection` events: it
only logs the rejection reason. -/
def onRejectionHandler (r : JSValue) : List LogEntry :=
  [LogEntry.unhandledRejection r]

/-- Dispatching an uncaught-error event against a state: each registered
handler runs once on the event, and no handler mutates the state. -/
def dispatchErrorEvent (s : StartupState) (e : JSValue) :
    StartupState × List LogEntry :=
  (s, (List.replicate s.errorHandlers e).flatMap onErrorHandler)

/-- Dispatching an unhandled-rejection event against a state: each
registered handler runs once on the reason, and no handler mutates the
state. -/
def dispatchRejectionEvent (s : StartupState) (r : JSValue) :
    StartupState × List LogEntry :=
  (s, (List.replicate s.rejectionHandlers r).flatMap onRejectionHandler)

/-- Dispatching a context-menu trigger event against a state: the default
action is suppressed exactly when some registered handler called
`preventDefault`, and the only handler the source ever registers does
exactly that, so suppression holds iff a handler is registered. -/
def dispatchContextMenu (s : StartupState) : Bool :=
  decide (0 < s.contextMenuHandlers)

/-- Closed form of the startup state when the anchor element is present:
the trace lists the steps in source order and every registration
succeeds. -/
theorem startup_ok (env : Env) (hr : "root" ∈ env.doc.ids) :
    startup env =
      { trace :=
          (if isTauri env.tauriGlobal then [Event.invokeDispatch "init_app"] else [])
            ++ [Event.createRootCall, Event.renderMount]
            ++ (if env.dev then [] else [Event.addContextMenuListener])
            ++ [Event.addErrorListener, Event.addRejectionListener]
      , mountCount := 1
      , toasterOptions := some toastOptions
      , contextMenuHandlers := if env.dev then 0 else 1
      , errorHandlers := 1
      , rejectionHandlers := 1
      , fatal := none } := by
  cases hc : isTauri env.tauriGlobal <;> cases hd : env.dev <;>
    simp [startup, initStep, createRootStep, renderStep, contextMenuStep,
      errorListenerStep, rejectionListenerStep, getElementById, initialState,
      hr, hc, hd]

/-- Closed form of the startup state when the anchor element is absent:
`createRoot` throws, so nothing past the conditional dispatch runs —
no mount, no listener of any kind, and the fatal error propagates. -/
theorem startup_fatal (env : Env) (hr : "root" ∉ env.doc.ids) :
    startup env =
      { trace :=
          if isTauri env.tauriGlobal then [Event.invokeDispatch "init_app"] else []
      , mountCount := 0
      , toasterOptions := none
      , contextMenuHandlers := 0
      , errorHandlers := 0
      , rejectionHandlers := 0
      , fatal := some FatalError.createRootOnNull } := by
  cases hc : isTauri env.tauriGlobal <;>
    simp [startup, initStep, createRootStep, renderStep, contextMenuStep,
      errorListenerStep, rejectionListenerStep, getElementById, initialState,
      hr, hc]

/-- The synchronous startup sequence never reads the settlement of the
`init_app` promise: its result is identical for every settlement
value. -/
theorem startup_initResult_independent (env : Env) (r : InvokeResult) :
    startup { env with initResult := r } = startup env := rfl

/-- Detection is exactly "not `undefined`". -/
theorem isTauri_eq_true_iff (v : JSValue) :
    isTauri v = true ↔ v ≠ JSValue.undefined := by
  cases v <;> simp [isTauri]

/-- The `init_app` dispatch appears in the startup trace exactly when
detection succeeded, whatever the document and build mode. -/
theorem invoke_mem_trace_iff (env : Env) :
    Event.invokeDispatch "init_app" ∈ (startup env).trace ↔
      isTauri env.tauriGlobal = true := by
  by_cases hr : "root" ∈ env.doc.ids
  · rw [startup_ok env hr]
    cases hc : isTauri env.tauriGlobal <;> cases hd : env.dev <;> simp [hc, hd]
  · rw [startup_fatal env hr]
    cases hc : isTauri env.tauriGlobal <;> simp [hc]

/-- C1: if the host bridge flag is present and the `init_app` call
rejects with an error value `e`, the settlement produces exactly one
diagnostic log entry referencing `e`, the promise chain fulfills (no
exception escapes the startup sequence), and the synchronous startup —
in particular the UI mount — is identical for every settlement value,
so the failure is non-fatal to the UI mount. -/
theorem c1_init_failure_logged_once (env : Env) (e : JSValue)
    (hT : isTauri env.tauriGlobal = true)
    (hR : env.initResult = InvokeResult.rejected e) :
    settleInit env = some ([LogEntry.initError e], SettleOutcome.fulfilled) ∧
    ∀ r : InvokeResult, startup { env with initResult := r } = startup env := by
  refine ⟨?_, fun r => startup_initResult_independent env r⟩
  simp [settleInit, hT, hR, initCatch]

/-- C1 witness: a concrete run with the bridge present and the call
rejecting with a string error. -/
theorem c1_witness :
    settleInit
        { tauriGlobal := JSValue.obj, dev := false,
          initResult := InvokeResult.rejected (JSValue.str "boom"),
          doc := { ids := ["root"] } }
      = some ([LogEntry.initError (JSValue.str "boom")], SettleOutcome.fulfilled) ∧
    startup
        { tauriGlobal := JSValue.obj, dev := false,
          initResult := InvokeResult.resolved JSValue.undefined,
          doc := { ids := ["root"] } }
      = startup
          { tauriGlobal := JSValue.obj, dev := false,
            initResult := InvokeResult.rejected (JSValue.str "boom"),
            doc := { ids := ["root"] } } :=
  ⟨(c1_init_failure_logged_once
      { tauriGlobal := JSValue.obj, dev := false,
        initResult := InvokeResult.rejected (JSValue.str "boom"),
        doc := { ids := ["root"] } }
      (JSValue.str "boom") rfl rfl).1,
   (c1_init_failure_logged_once
      { tauriGlobal := JSValue.obj, dev := false,
        initResult := InvokeResult.rejected (JSValue.str "boom"),
        doc := { ids := ["root"] } }
      (JSValue.str "boom") rfl rfl).2
     (InvokeResult.resolved JSValue.undefined)⟩

/-- C2: when the global bridge binding is `undefined`, detection reports
absence, no dispatch of any command appears in the startup trace, and
there is no `init_app` settlement at all. -/
theorem c2_no_invoke_without_bridge (env : Env)
    (h : env.tauriGlobal = JSValue.undefined) :
    isTauri env.tauriGlobal = false ∧
    (∀ cmd : String, Event.invokeDispatch cmd ∉ (startup env).trace) ∧
    settleInit env = none := by
  have hc : isTauri env.tauriGlobal = false := by rw [h]; rfl
  refine ⟨hc, ?_, by simp [settleInit, hc]⟩
  intro cmd
  by_cases hr : "root" ∈ env.doc.ids
  · rw [startup_ok env hr]
    cases hd : env.dev <;> simp [hc, hd]
  · rw [startup_fatal env hr]
    simp [hc]

/-- C2 witness: a concrete browser-preview run (binding `undefined`). -/
theorem c2_witness :
    Event.invokeDispatch "init_app" ∉
      (startup
        { tauriGlobal := JSValue.undefined, dev := true,
          initResult := InvokeResult.resolved JSValue.null,
          doc := { ids := ["root"] } }).trace ∧
    settleInit
        { tauriGlobal := JSValue.undefined, dev := true,
          initResult := InvokeResult.resolved JSValue.null,
          doc := { ids := ["root"] } } = none :=
  ⟨(c2_no_invoke_without_bridge _ rfl).2.1 "init_app",
   (c2_no_invoke_without_bridge _ rfl).2.2⟩

/-- C3: with the bridge present and the anchor in the document, the
startup trace begins with the `init_app` dispatch immediately followed
by the root creation and the mount, and the whole synchronous sequence
is independent of the settlement of the dispatched call: the mount never
waits for the `init_app` result. -/
theorem c3_mount_not_blocked_on_init (env : Env)
    (hT : isTauri env.tauriGlobal = true) (hr : "root" ∈ env.doc.ids) :
    (startup env).trace.take 3 =
      [Event.invokeDispatch "init_app", Event.createRootCall,
        Event.renderMount] ∧
    ∀ r : InvokeResult, startup { env with initResult := r } = startup env := by
  refine ⟨?_, fun r => startup_initResult_independent env r⟩
  rw [startup_ok env hr]
  simp [hT]

/-- C3 witness: a concrete run with the bridge present. -/
theorem c3_witness :
    (startup
        { tauriGlobal := JSValue.obj, dev := false,
          initResult := InvokeResult.resolved JSValue.null,
          doc := { ids := ["root"] } }).trace.take 3 =
      [Event.invokeDispatch "init_app", Event.createRootCall,
        Event.renderMount] ∧
    startup
        { tauriGlobal := JSValue.obj, dev := false,
          initResult := InvokeResult.rejected JSValue.null,
          doc := { ids := ["root"] } }
      = startup
          { tauriGlobal := JSValue.obj, dev := false,
            initResult := InvokeResult.resolved JSValue.null,
            doc := { ids := ["root"] } } :=
  ⟨(c3_mount_not_blocked_on_init
      { tauriGlobal := JSValue.obj, dev := false,
        initResult := InvokeResult.resolved JSValue.null,
        doc := { ids := ["root"] } } rfl (by decide)).1,
   (c3_mount_not_blocked_on_init
      { tauriGlobal := JSValue.obj, dev := false,
        initResult := InvokeResult.resolved JSValue.null,
        doc := { ids := ["root"] } } rfl (by decide)).2
     (InvokeResult.rejected JSValue.null)⟩

/-- C4: after a successful startup, a context-menu trigger event has its
default action suppressed exactly when the build is not flagged as a
development build. -/
theorem c4_contextmenu_suppression (env : Env)
    (hr : "root" ∈ env.doc.ids) :
    (env.dev = false → dispatchContextMenu (startup env) = true) ∧
    (env.dev = true → dispatchContextMenu (startup env) = false) := by
  rw [startup_ok env hr]
  constructor <;> intro hd <;> simp [dispatchContextMenu, hd]

/-- C4 witness: a concrete production run and a concrete development
run. -/
theorem c4_witness :
    dispatchContextMenu
        (startup
          { tauriGlobal := JSValue.obj, dev := false,
            initResult := InvokeResult.resolved JSValue.null,
            doc := { ids := ["root"] } }) = true ∧
    dispatchContextMenu
        (startup
          { tauriGlobal := JSValue.obj, dev := true,
            initResult := InvokeResult.resolved JSValue.null,
            doc := { ids := ["root"] } }) = false :=
  ⟨(c4_contextmenu_suppression
      { tauriGlobal := JSValue.obj, dev := false,
        initResult := InvokeResult.resolved JSValue.null,
        doc := { ids := ["root"] } } (by decide)).1 rfl,
   (c4_contextmenu_suppression
      { tauriGlobal := JSValue.obj, dev := true,
        initResult := InvokeResult.resolved JSValue.null,
        doc := { ids := ["root"] } } (by decide)).2 rfl⟩

/-- C5: the notification renderer receives exactly the constant
`toastOptions` record, whose duration is 4000 ms, whose success accent
differs from the error accent, and whose two severities share the same
secondary color. -/
theorem c5_toast_options (env : Env) (hr : "root" ∈ env.doc.ids) :
    (startup env).toasterOptions = some toastOptions ∧
    toastOptions.duration = 4000 ∧
    toastOptions.success.iconTheme.primary ≠
      toastOptions.error.iconTheme.primary ∧
    toastOptions.success.iconTheme.secondary =
      toastOptions.error.iconTheme.secondary := by
  rw [startup_ok env hr]
  exact ⟨rfl, rfl, by decide, rfl⟩

/-- C5 witness: a concrete successful startup. -/
theorem c5_witness :
    (startup
        { tauriGlobal := JSValue.undefined, dev := false,
          initResult := InvokeResult.resolved JSValue.null,
          doc := { ids := ["root"] } }).toasterOptions = some toastOptions ∧
    toastOptions.duration = 4000 ∧
    toastOptions.success.iconTheme.primary ≠
      toastOptions.error.iconTheme.primary ∧
    toastOptions.success.iconTheme.secondary =
      toastOptions.error.iconTheme.secondary :=
  c5_toast_options
    { tauriGlobal := JSValue.undefined, dev := false,
      initResult := InvokeResult.resolved JSValue.null,
      doc := { ids := ["root"] } } (by decide)

/-- C6: after a successful startup, dispatching an uncaught-error event
or an unhandled-rejection event produces exactly one diagnostic log
entry referencing the event, leaves the application state untouched, and
returns normally (the handlers are terminal sinks). -/
theorem c6_global_guards (env : Env) (hr : "root" ∈ env.doc.ids)
    (e r : JSValue) :
    dispatchErrorEvent (startup env) e =
      (startup env, [LogEntry.globalError e]) ∧
    dispatchRejectionEvent (startup env) r =
      (startup env, [LogEntry.unhandledRejection r]) := by
  rw [startup_ok env hr]
  constructor <;> rfl

/-- C6 witness: a concrete error event and a concrete rejection event
against a concrete post-startup state. -/
theorem c6_witness :
    dispatchErrorEvent
        (startup
          { tauriGlobal := JSValue.obj, dev := false,
            initResult := InvokeResult.resolved JSValue.null,
            doc := { ids := ["root"] } }) (JSValue.str "oops") =
      (startup
        { tauriGlobal := JSValue.obj, dev := false,
          initResult := InvokeResult.resolved JSValue.null,
          doc := { ids := ["root"] } },
        [LogEntry.globalError (JSValue.str "oops")]) ∧
    dispatchRejectionEvent
        (startup
          { tauriGlobal := JSValue.obj, dev := false,
            initResult := InvokeResult.resolved JSValue.null,
            doc := { ids := ["root"] } }) (JSValue.num 7) =
      (startup
        { tauriGlobal := JSValue.obj, dev := false,
          initResult := InvokeResult.resolved JSValue.null,
          doc := { ids := ["root"] } },
        [LogEntry.unhandledRejection (JSValue.num 7)]) :=
  c6_global_guards
    { tauriGlobal := JSValue.obj, dev := false,
      initResult := InvokeResult.resolved JSValue.null,
      doc := { ids := ["root"] } } (by decide)
    (JSValue.str "oops") (JSValue.num 7)

/-- C7: when the host bridge flag is present and the `init_app` call
resolves successfully, the settlement produces no diagnostic log entry
at all. -/
theorem c7_init_success_silent (env : Env) (v : JSValue)
    (hT : isTauri env.tauriGlobal = true)
    (hR : env.initResult = InvokeResult.resolved v) :
    settleInit env = some ([], SettleOutcome.fulfilled) := by
  simp [settleInit, hT, hR, initCatch]

/-- C7 witness: a concrete run with the bridge present and the call
resolving. -/
theorem c7_witness :
    settleInit
        { tauriGlobal := JSValue.obj, dev := false,
          initResult := InvokeResult.resolved JSValue.null,
          doc := { ids := ["root"] } }
      = some ([], SettleOutcome.fulfilled) :=
  c7_init_success_silent
    { tauriGlobal := JSValue.obj, dev := false,
      initResult := InvokeResult.resolved JSValue.null,
      doc := { ids := ["root"] } } JSValue.null rfl rfl

/-- C8: the mount obtains the anchor by the fixed identifier `root` with
no defensive check: when the element is present the subtree is replaced
exactly once and startup completes without a pending exception, and when
it is absent the `createRoot` failure is fatal, nothing is mounted, and
the error propagates uncaught to the end of the sequence. -/
theorem c8_anchor_contract (env : Env) :
    ("root" ∈ env.doc.ids →
      getElementById env.doc "root" = some "root" ∧
      (startup env).mountCount = 1 ∧ (startup env).fatal = none) ∧
    ("root" ∉ env.doc.ids →
      getElementById env.doc "root" = none ∧
      (startup env).mountCount = 0 ∧
      (startup env).fatal = some FatalError.createRootOnNull) := by
  constructor <;> intro hr
  · rw [startup_ok env hr]
    exact ⟨by simp [getElementById, hr], rfl, rfl⟩
  · rw [startup_fatal env hr]
    exact ⟨by simp [getElementById, hr], rfl, rfl⟩

/-- C8 witness: a concrete document holding the anchor, and a concrete
document missing it. -/
theorem c8_witness :
    ((startup
        { tauriGlobal := JSValue.obj, dev := false,
          initResult := InvokeResult.resolved JSValue.null,
          doc := { ids := ["root"] } }).mountCount = 1 ∧
      (startup
        { tauriGlobal := JSValue.obj, dev := false,
          initResult := InvokeResult.resolved JSValue.null,
          doc := { ids := ["root"] } }).fatal = none) ∧
    ((startup
        { tauriGlobal := JSValue.obj, dev := false,
          initResult := InvokeResult.resolved JSValue.null,
          doc := { ids := ["app"] } }).mountCount = 0 ∧
      (startup
        { tauriGlobal := JSValue.obj, dev := false,
          initResult := InvokeResult.resolved JSValue.null,
          doc := { ids := ["app"] } }).fatal =
        some FatalError.createRootOnNull) :=
  ⟨((c8_anchor_contract
      { tauriGlobal := JSValue.obj, dev := false,
        initResult := InvokeResult.resolved JSValue.null,
        doc := { ids := ["root"] } }).1 (by decide)).2,
   ((c8_anchor_contract
      { tauriGlobal := JSValue.obj, dev := false,
        initResult := InvokeResult.resolved JSValue.null,
        doc := { ids := ["app"] } }).2 (by decide)).2⟩

/-- C9: host-bridge detection is a strict comparison against
`undefined`: `null`, `false`, `0` and an object all count as present,
only `undefined` counts as absent, and the `init_app` dispatch appears
in the startup trace exactly when the binding is not `undefined`. -/
theorem c9_strict_undefined_check :
    (∀ v : JSValue, isTauri v = true ↔ v ≠ JSValue.undefined) ∧
    isTauri JSValue.null = true ∧
    isTauri (JSValue.bool false) = true ∧
    isTauri (JSValue.num 0) = true ∧
    isTauri JSValue.obj = true ∧
    isTauri JSValue.undefined = false ∧
    ∀ env : Env,
      Event.invokeDispatch "init_app" ∈ (startup env).trace ↔
        env.tauriGlobal ≠ JSValue.undefined := by
  refine ⟨isTauri_eq_true_iff, rfl, rfl, rfl, rfl, rfl, fun env => ?_⟩
  rw [invoke_mem_trace_iff env]
  exact isTauri_eq_true_iff env.tauriGlobal

/-- C9 witness: with the binding set to `null` the dispatch is issued. -/
theorem c9_witness :
    isTauri JSValue.null = true ∧
    Event.invokeDispatch "init_app" ∈
      (startup
        { tauriGlobal := JSValue.null, dev := false,
          initResult := InvokeResult.resolved JSValue.null,
          doc := { ids := ["root"] } }).trace :=
  ⟨c9_strict_undefined_check.2.1,
   (c9_strict_undefined_check.2.2.2.2.2.2
      { tauriGlobal := JSValue.null, dev := false,
        initResult := InvokeResult.resolved JSValue.null,
        doc := { ids := ["root"] } }).mpr (by decide)⟩

/-- C10: the global error and rejection listeners are registered last:
at the point of the sequence just after the mount neither kind of
handler exists yet, so an event dispatched then is not logged; on a
successful startup the registrations sit strictly after the dispatch and
the mount in the trace; and when the mount dies fatally the listeners
are never registered at all, so nothing is ever logged by them. -/
theorem c10_guards_registered_last (env : Env) (e r : JSValue) :
    (dispatchErrorEvent
        (renderStep (createRootStep env (initStep env initialState))) e).2
      = [] ∧
    (dispatchRejectionEvent
        (renderStep (createRootStep env (initStep env initialState))) r).2
      = [] ∧
    ("root" ∈ env.doc.ids →
      (startup env).trace.indexOf Event.renderMount <
          (startup env).trace.indexOf Event.addErrorListener ∧
      (startup env).trace.indexOf Event.addErrorListener <
          (startup env).trace.indexOf Event.addRejectionListener ∧
      (isTauri env.tauriGlobal = true →
        (startup env).trace.indexOf (Event.invokeDispatch "init_app") <
          (startup env).trace.indexOf Event.addErrorListener)) ∧
    ("root" ∉ env.doc.ids →
      (startup env).errorHandlers = 0 ∧
      (startup env).rejectionHandlers = 0 ∧
      (dispatchErrorEvent (startup env) e).2 = [] ∧
      (dispatchRejectionEvent (startup env) r).2 = []) := by
  refine ⟨?_, ?_, ?_, ?_⟩
  · cases hc : isTauri env.tauriGlobal <;>
      by_cases hr : "root" ∈ env.doc.ids <;>
        simp [dispatchErrorEvent, renderStep, createRootStep, initStep,
          initialState, getElementById, hc, hr]
  · cases hc : isTauri env.tauriGlobal <;>
      by_cases hr : "root" ∈ env.doc.ids <;>
        simp [dispatchRejectionEvent, renderStep, createRootStep, initStep,
          initialState, getElementById, hc, hr]
  · intro hr
    rw [startup_ok env hr]
    cases hc : isTauri env.tauriGlobal <;> cases hd : env.dev <;>
      simp [hc, hd]
  · intro hr
    rw [startup_fatal env hr]
    exact ⟨rfl, rfl, rfl, rfl⟩

/-- C10 witness: a concrete run, with the bridge present, where the
mount strictly precedes both listener registrations and an error raised
before registration produces no log. -/
theorem c10_witness :
    (dispatchErrorEvent
        (renderStep
          (createRootStep
            { tauriGlobal := JSValue.obj, dev := false,
              initResult := InvokeResult.resolved JSValue.null,
              doc := { ids := ["root"] } }
            (initStep
              { tauriGlobal := JSValue.obj, dev := false,
                initResult := InvokeResult.resolved JSValue.null,
                doc := { ids := ["root"] } } initialState)))
        (JSValue.str "early")).2 = [] ∧
    (startup
        { tauriGlobal := JSValue.obj, dev := false,
          initResult := InvokeResult.resolved JSValue.null,
          doc := { ids := ["root"] } }).trace.indexOf Event.renderMount <
      (startup
        { tauriGlobal := JSValue.obj, dev := false,
          initResult := InvokeResult.resolved JSValue.null,
          doc := { ids := ["root"] } }).trace.indexOf
        Event.addErrorListener :=
  ⟨(c10_guards_registered_last
      { tauriGlobal := JSValue.obj, dev := false,
        initResult := InvokeResult.resolved JSValue.null,
        doc := { ids := ["root"] } }
      (JSValue.str "early") (JSValue.str "early")).1,
   ((c10_guards_registered_last
      { tauriGlobal := JSValue.obj, dev := false,
        initResult := InvokeResult.resolved JSValue.null,
        doc := { ids := ["root"] } }
      (JSValue.str "early") (JSValue.str "early")).2.2.1 (by decide)).1⟩

end OmnioSearch
